import Mathlib

/-
Shallow embedding of the fixed-capacity type-erased container in src/any.hpp
(struct static_any<_N>, the per-type operation dispatcher in namespace
detail::static_any, the free any_cast functions, bad_any_cast, and the
trivial container static_any_t<_N>).

Modelling conventions
  * A concrete C++ payload type is described by a CppType record: its
    type-identity token (what std::type_info comparison sees), its size,
    the two static nothrow-constructibility traits, and whether its copy
    and move constructors throw when actually invoked.  Constructors are
    deterministic: a constructor either always throws or never does, like
    the test types (unsafe_to_copy, unsafe_to_construct) of the repository.
  * The dispatcher function instantiated for a type (detail::static_any::
    operation<_T>, any.hpp lines 20-65) is modelled as a Dispatcher record:
    the type it was instantiated for together with a symbol number.  Two
    instantiations of the dispatcher for the same type in different
    binaries are distinct symbols (distinct function pointers) with the
    same behaviour; pointer equality of the function pointers is equality
    of the whole Dispatcher record.  The dispatcher obtained in the local
    binary (get_function_for_type, lines 67-71) has symbol number
    localSymbol.
  * The byte buffer buff_ of static_any is modelled as an Option Payload.
    A Payload records the object identity (objId, fresh at each placement
    construction), its type, its value (a Nat standing for the object
    state) and whether it has been moved from.  Destroying the object does
    NOT clear the buffer: exactly as in the source, the destroyed object
    bytes stay in buff_ until overwritten, which is what the snapshot /
    restore code of assign relies on.  The container is empty iff
    function_ (field fn) is none (any.hpp line 178).
  * Construction and destruction of payload objects are recorded as
    events in a context Ctx that also provides fresh object identities,
    so that claims about how often a destructor runs are statements about
    the event trace.
-/

/-- Descriptor of a concrete C++ type stored in a static_any: its
type-identity token, size, the two static nothrow traits, and whether the
copy / move constructor throws when invoked (deterministically). -/
structure CppType where
  tid : Nat
  tsize : Nat
  nothrowCopy : Bool
  nothrowMove : Bool
  copyThrows : Bool
  moveThrows : Bool
deriving DecidableEq, Repr

/-- operation_t::query_noexcept (any.hpp line 39): true iff the type is
nothrow copy constructible or nothrow move constructible. -/
def queryNoexcept (t : CppType) : Bool :=
  t.nothrowCopy || t.nothrowMove

/-- The type-identity token of void, reported by type() for an empty
container (any.hpp line 173). -/
def voidTid : Nat := 0

/-- The per-type dispatcher function detail::static_any::operation<_T>
(any.hpp lines 20-65): behaviour is fully determined by the type it was
instantiated for; symbol tells which binary instantiated it (distinct
symbols are distinct function pointers). -/
structure Dispatcher where
  ty : CppType
  symbol : Nat
deriving DecidableEq, Repr

/-- The symbol number of dispatcher instantiations in the local binary. -/
def localSymbol : Nat := 0

/-- A type expression as written at an API call site: a base type plus a
possible top-level const qualifier (reference qualifiers behave the same
way and are collapsed into the base). -/
structure TypeExpr where
  base : CppType
  isConst : Bool
deriving DecidableEq, Repr

/-- detail::static_any::get_function_for_type<_T> (any.hpp lines 67-71):
returns the local dispatcher for the cv- and reference-stripped type. -/
def get_function_for_type (e : TypeExpr) : Dispatcher :=
  ⟨e.base, localSymbol⟩

/-- typeid applied to a type expression: cv-qualifiers are ignored, so the
token is the base type token. -/
def typeidOf (e : TypeExpr) : Nat := e.base.tid

/-- A live or destroyed payload object occupying a buffer: object
identity, type, value, and whether it has been moved from. -/
structure Payload where
  objId : Nat
  ty : CppType
  val : Nat
  movedFrom : Bool
deriving DecidableEq, Repr

/-- Trace events: which constructor of the dispatcher ran (copy, move, or
the direct placement construction of emplace) producing the object with
the given identity, and destructor invocations. -/
inductive Event where
  | copyCtor (objId : Nat)
  | moveCtor (objId : Nat)
  | directCtor (objId : Nat)
  | dtor (objId : Nat)
deriving DecidableEq, Repr

/-- Execution context: the next fresh object identity and the trace of
construction and destruction events so far. -/
structure Ctx where
  next : Nat
  events : List Event
deriving DecidableEq, Repr

/-- How many times the destructor of object i has run in a trace. -/
def dtorCount (evs : List Event) (i : Nat) : Nat :=
  evs.countP (fun e => e == Event.dtor i)

/-- The container static_any<_N> (any.hpp lines 75-422): the byte buffer
(with the bytes of a destroyed object staying in place until overwritten)
and the nullable dispatcher pointer function_. -/
structure static_any where
  cap : Nat
  buff : Option Payload
  fn : Option Dispatcher
deriving DecidableEq, Repr

/-- A default-constructed static_any<_N> (any.hpp line 81). -/
def emptyAny (n : Nat) : static_any := ⟨n, none, none⟩

namespace static_any

/-- static_any::empty (any.hpp line 178): true iff function_ is null. -/
def empty (a : static_any) : Bool := a.fn == none

/-- static_any::type (any.hpp lines 170-176): typeid(void) if empty, the
stored type token otherwise (query_type, lines 286-292). -/
def type (a : static_any) : Nat :=
  match a.fn with
  | none => voidTid
  | some d => d.ty.tid

/-- static_any::size (any.hpp lines 180-186): 0 if empty, the stored
size otherwise (query_size, lines 294-300). -/
def size (a : static_any) : Nat :=
  match a.fn with
  | none => 0
  | some d => d.ty.tsize

/-- static_any::has<_T> (any.hpp lines 155-168): fast path compares the
stored dispatcher pointer with the local dispatcher for _T; if that fails
and the container is not empty, fall back to comparing type-identity
tokens (std::type_index over typeid), which is the cross-binary-safe
comparison. -/
def has (a : static_any) (e : TypeExpr) : Bool :=
  match a.fn with
  | some d =>
    if d == get_function_for_type e then true
    else decide (typeidOf e = d.ty.tid)
  | none => false

end static_any

/-- operation_t::copy (any.hpp lines 42-49): placement-copy-construct a
new object from src into the destination buffer; none models the copy
constructor throwing (nothing constructed, no event). -/
def opCopy (ty : CppType) (src : Payload) (c : Ctx) : Option (Payload × Ctx) :=
  if ty.copyThrows then none
  else some (⟨c.next, ty, src.val, false⟩,
             ⟨c.next + 1, c.events ++ [Event.copyCtor c.next]⟩)

/-- operation_t::move (any.hpp lines 50-57): placement-move-construct a
new object from src; on success the source object is left moved from.
none models the move constructor throwing (source untouched). -/
def opMove (ty : CppType) (src : Payload) (c : Ctx) :
    Option (Payload × Payload × Ctx) :=
  if ty.moveThrows then none
  else some (⟨c.next, ty, src.val, false⟩, { src with movedFrom := true },
             ⟨c.next + 1, c.events ++ [Event.moveCtor c.next]⟩)

/-- static_any::destroy (any.hpp lines 309-317): if function_ is bound,
invoke the dispatcher destroy operation on the buffer object and null
function_; the object bytes stay in the buffer. -/
def destroy (a : static_any) (c : Ctx) : static_any × Ctx :=
  match a.fn, a.buff with
  | some _, some p =>
    ({ a with fn := none }, ⟨c.next, c.events ++ [Event.dtor p.objId]⟩)
  | some _, none => ({ a with fn := none }, c)
  | none, _ => (a, c)

/-- static_any::reset (any.hpp line 147): just destroy. -/
def reset (a : static_any) (c : Ctx) : static_any × Ctx := destroy a c

/-- Value category of the argument of the value constructor or the value
assignment operator; the deduced template parameter _T is T& for a
non-const lvalue, const T& for a const lvalue and T for an rvalue. -/
inductive ValCat where
  | lval
  | clval
  | rval
deriving DecidableEq, Repr

/-- The compile-time constant cannot_throw of static_any::assign (any.hpp
lines 246-249): std::conditional selects is_nothrow_move_constructible<_T>
when _T is an rvalue reference and is_nothrow_copy_constructible<_T>
otherwise.  _T is never an rvalue reference (it is T& or const T& for an
lvalue argument and the plain type T for an rvalue argument), so the
second branch is always taken; for the reference types T& and const T&
is_nothrow_copy_constructible is vacuously true (binding a reference never
throws), so only the rvalue case consults the payload type itself, and it
consults the copy trait although the move operation will run. -/
def cannot_throw (vc : ValCat) (t : CppType) : Bool :=
  match vc with
  | ValCat.rval => t.nothrowCopy
  | _ => true

/-- call_copy_or_move<_T&&> (any.hpp lines 272-284): the move operation is
selected iff _T&& is an rvalue reference, which holds iff the original
argument was an rvalue. -/
def movesValue (vc : ValCat) : Bool := vc == ValCat.rval

/-- The type expression _T deduced for a value argument of base type t in
category vc (used for get_function_for_type<_T>). -/
def exprOfCat (vc : ValCat) (t : CppType) : TypeExpr :=
  ⟨t, vc == ValCat.clval⟩

/-- Result of an operation on one container: whether an exception
propagated, the container afterwards, and the context. -/
structure OpResult where
  thrown : Bool
  self : static_any
  ctx : Ctx
deriving DecidableEq, Repr

/-- Result of an operation that can also mutate a source container. -/
structure Op2Result where
  thrown : Bool
  self : static_any
  src : static_any
  ctx : Ctx
deriving DecidableEq, Repr

/-- static_any::assign (any.hpp lines 236-270): snapshot the raw buffer
bytes and function_ unless cannot_throw, destroy the current value, run
the copy or move operation for the new value, restore the snapshot and
rethrow on exception, else bind the dispatcher of the new type.
The argument object itself belongs to the caller and is not tracked; a
const lvalue argument is not modelled because the overload
operator=(const _T&) selected for it does not compile (its body
std::forward<_T>(t) cannot bind a const lvalue). -/
def assign (a : static_any) (vc : ValCat) (t : CppType) (v : Nat) (c : Ctx) :
    OpResult :=
  let snap : Option (Option Payload × Option Dispatcher) :=
    if cannot_throw vc t then none else some (a.buff, a.fn)
  let dc := destroy a c
  let arg : Payload := ⟨0, t, v, false⟩
  let attempt : Option (Payload × Ctx) :=
    if movesValue vc then
      (opMove t arg dc.2).map (fun x => (x.1, x.2.2))
    else opCopy t arg dc.2
  match attempt with
  | some (p, c2) =>
    ⟨false, ⟨dc.1.cap, some p, some (get_function_for_type (exprOfCat vc t))⟩, c2⟩
  | none =>
    match snap with
    | some (b, f) => ⟨true, ⟨dc.1.cap, b, f⟩, dc.2⟩
    | none => ⟨true, dc.1, dc.2⟩

/-- static_any::copy_or_move (any.hpp lines 217-234), the body of the
value constructor (lines 88-92): the container starts empty, the copy or
move operation runs, and on success the dispatcher for the stripped type
is bound; if the constructor of the value throws, function_ was never
set, so the container stays empty. -/
def copy_or_move (cap : Nat) (vc : ValCat) (t : CppType) (v : Nat) (c : Ctx) :
    OpResult :=
  let arg : Payload := ⟨0, t, v, false⟩
  let attempt : Option (Payload × Ctx) :=
    if movesValue vc then
      (opMove t arg c).map (fun x => (x.1, x.2.2))
    else opCopy t arg c
  match attempt with
  | some (p, c2) =>
    ⟨false, ⟨cap, some p, some (get_function_for_type (exprOfCat vc t))⟩, c2⟩
  | none => ⟨true, emptyAny cap, c⟩

/-- static_any::assign_from_another (any.hpp lines 366-409): empty source
destroys the destination and returns; otherwise query the source type
noexcept guarantee through the source dispatcher (the OR of the copy and
move guarantees, line 39), snapshot the destination bytes and function_
unless that guarantee holds, destroy the destination, and run the source
dispatcher move operation if the argument was an rvalue reference, the
copy operation otherwise; on exception restore the snapshot (if taken)
and rethrow, else adopt the source dispatcher.  The source function_ is
never cleared. -/
def assign_from_another (dst src : static_any) (isRval : Bool) (c : Ctx) :
    Op2Result :=
  match src.fn with
  | none =>
    let dc := destroy dst c
    ⟨false, dc.1, src, dc.2⟩
  | some sfn =>
    match src.buff with
    | none => ⟨false, dst, src, c⟩
    | some sp =>
      let nothrow_copy := queryNoexcept sfn.ty
      let snap : Option (Option Payload × Option Dispatcher) :=
        if nothrow_copy then none else some (dst.buff, dst.fn)
      let dc := destroy dst c
      if isRval then
        match opMove sfn.ty sp dc.2 with
        | some (p, sp2, c2) =>
          ⟨false, ⟨dc.1.cap, some p, some sfn⟩, ⟨src.cap, some sp2, src.fn⟩, c2⟩
        | none =>
          match snap with
          | some (b, f) => ⟨true, ⟨dc.1.cap, b, f⟩, src, dc.2⟩
          | none => ⟨true, dc.1, src, dc.2⟩
      else
        match opCopy sfn.ty sp dc.2 with
        | some (p, c2) =>
          ⟨false, ⟨dc.1.cap, some p, some sfn⟩, src, c2⟩
        | none =>
          match snap with
          | some (b, f) => ⟨true, ⟨dc.1.cap, b, f⟩, src, dc.2⟩
          | none => ⟨true, dc.1, src, dc.2⟩

/-- static_any::copy_or_move_from_another (any.hpp lines 345-364): runs in
a freshly constructed (empty) container; empty source leaves it empty;
otherwise call_copy_or_move<static_any<_M>&&> always selects the MOVE
operation of the source dispatcher (both converting constructors that
compile pass the source as an rvalue, see ctor_from_lvalue_any), and on
success the source dispatcher is adopted; on exception function_ was
never set, so the new container is empty.  The source function_ is never
cleared. -/
def copy_or_move_from_another (cap : Nat) (src : static_any) (c : Ctx) :
    Op2Result :=
  match src.fn with
  | none => ⟨false, emptyAny cap, src, c⟩
  | some sfn =>
    match src.buff with
    | none => ⟨false, emptyAny cap, src, c⟩
    | some sp =>
      match opMove sfn.ty sp c with
      | some (p, sp2, c2) =>
        ⟨false, ⟨cap, some p, some sfn⟩, ⟨src.cap, some sp2, src.fn⟩, c2⟩
      | none => ⟨true, emptyAny cap, src, c⟩

/-- The converting constructor from a non-const lvalue static_any<_M>
(any.hpp lines 100-104): its body is
copy_or_move_from_another(std::forward<static_any<_M>>(another)), and
std::forward with a non-reference template argument casts the lvalue to
an rvalue, so the payload is move-constructed. -/
def ctor_from_lvalue_any (cap : Nat) (src : static_any) (c : Ctx) : Op2Result :=
  copy_or_move_from_another cap src c

/-- The converting constructor from an rvalue static_any<_M> (any.hpp
lines 106-110). -/
def ctor_from_rvalue_any (cap : Nat) (src : static_any) (c : Ctx) : Op2Result :=
  copy_or_move_from_another cap src c

/-- static_any::emplace<_T> (any.hpp lines 191-211): a local empty
static_any old; if the container holds a value whose dispatcher reports
the noexcept guarantee, old = std::move(*this) (which can itself throw
and then propagates with the container untouched); destroy the current
value; placement-construct _T (ctorThrows tells whether that constructor
throws); on exception move old back if it is non-empty and rethrow; on
success bind the dispatcher for _T.  The local old is destroyed when the
function exits on every path. -/
def emplace (a : static_any) (t : CppType) (ctorThrows : Bool) (v : Nat)
    (c : Ctx) : OpResult :=
  let old0 := emptyAny a.cap
  let step1 : Option (static_any × static_any × Ctx) :=
    match a.fn with
    | some d =>
      if queryNoexcept d.ty then
        let r := assign_from_another old0 a true c
        if r.thrown then none else some (r.self, r.src, r.ctx)
      else some (old0, a, c)
    | none => some (old0, a, c)
  match step1 with
  | none => ⟨true, a, c⟩
  | some (old1, a1, c1) =>
    let dc := destroy a1 c1
    if ctorThrows then
      match old1.fn with
      | none => ⟨true, dc.1, dc.2⟩
      | some _ =>
        let r2 := assign_from_another dc.1 old1 true dc.2
        ⟨true, r2.self, (destroy r2.src r2.ctx).2⟩
    else
      let p : Payload := ⟨dc.2.next, t, v, false⟩
      let c3 : Ctx := ⟨dc.2.next + 1, dc.2.events ++ [Event.directCtor dc.2.next]⟩
      let a3 : static_any := ⟨dc.1.cap, some p, some (get_function_for_type ⟨t, false⟩)⟩
      ⟨false, a3, (destroy old1 c3).2⟩

/-- bad_any_cast (any.hpp lines 424-458): carries the stored type token
(from_, returned by stored_type) and the requested type token (to_,
returned by target_type). -/
structure bad_any_cast where
  from_ : Nat
  to_ : Nat
deriving DecidableEq, Repr

/-- bad_any_cast::stored_type (any.hpp line 433). -/
def bad_any_cast.stored_type (b : bad_any_cast) : Nat := b.from_

/-- bad_any_cast::target_type (any.hpp line 434). -/
def bad_any_cast.target_type (b : bad_any_cast) : Nat := b.to_

/-- The pointer-returning any_cast (any.hpp lines 462-470): null pointer
if has<_ValueT>() is false, otherwise a pointer to the buffer object (its
value is read here); it never throws. -/
def any_cast_ptr (a : static_any) (e : TypeExpr) : Option Nat :=
  if a.has e then a.buff.map Payload.val else none

/-- The reference-returning any_cast (any.hpp lines 479-487): throws
bad_any_cast(a.type(), typeid(_ValueT)) if has<_ValueT>() is false,
otherwise yields the buffer object. -/
def any_cast_ref (a : static_any) (e : TypeExpr) : Except bad_any_cast Nat :=
  if a.has e then
    match a.buff with
    | some p => Except.ok p.val
    | none => Except.ok 0
  else Except.error ⟨a.type, typeidOf e⟩

/-- static_any::get<_T> (any.hpp lines 496-508): defined as the
reference-returning any_cast. -/
def static_any.get (a : static_any) (e : TypeExpr) : Except bad_any_cast Nat :=
  any_cast_ref a e

/-
The trivial container static_any_t<_N> (any.hpp lines 511-559): a bare
byte buffer of _N bytes, no dispatcher.  The buffer is modelled as a list
of bytes (each byte a Nat); a trivially-copyable value of size k is its
list of k bytes.
-/

/-- The trivial container static_any_t<_N> (any.hpp lines 511-559): only
the byte buffer; capT is the compile-time capacity _N, and buffT models
the storage region (length capT in every reachable state). -/
structure static_any_t where
  capT : Nat
  buffT : List Nat
deriving DecidableEq, Repr

/-- std::memcpy(&buff_, &t, k) where the source object is the byte list
srcBytes of length k: overwrite the first k bytes of the buffer, keep the
rest. -/
def memcpyInto (buff : List Nat) (srcBytes : List Nat) : List Nat :=
  srcBytes ++ buff.drop srcBytes.length

/-- static_any_t::copy for a value argument (any.hpp lines 542-556):
memcpy of sizeof(_ValueT) bytes of the argument into the buffer (the
static_asserts that the type is trivially copyable and fits are the
compile-time preconditions carried as hypotheses by the theorems). -/
def static_any_t.copyVal (a : static_any_t) (bytes : List Nat) : static_any_t :=
  ⟨a.capT, memcpyInto a.buffT bytes⟩

/-- static_any_t::get<_ValueT> (any.hpp lines 535-539): reinterpret the
buffer as the value, i.e. read its first sizeof(_ValueT) bytes; no check
of any kind. -/
def static_any_t.getBytes (a : static_any_t) (k : Nat) : List Nat :=
  a.buffT.take k

/-- Copying one static_any_t into another: the defaulted copy constructor
(any.hpp line 520) copies the whole storage member, and the template
assignment operator (lines 528-533) resolves its copy to a memcpy of
sizeof(static_any_t<_N>) = _N bytes of the other container; both are a
memcpy of the full capacity region. -/
def static_any_t.copyFrom (dst src : static_any_t) : static_any_t :=
  ⟨dst.capT, memcpyInto dst.buffT src.buffT⟩

/-
Concrete type descriptors used by the counterexamples and witnesses.
-/

/-- int: nothrow copy and move constructible, constructors never throw. -/
def intTy : CppType := ⟨1, 4, true, true, false, false⟩

/-- unsafe_to_copy from the repository tests: its copy constructor always
throws; it declares no move constructor, so move construction falls back
to the (throwing) copy constructor; neither trait is nothrow. -/
def utcTy : CppType := ⟨7, 1, false, false, true, true⟩

/-- A type with no noexcept guarantee whose constructors nevertheless do
not throw when invoked. -/
def plainTy : CppType := ⟨3, 8, false, false, false, false⟩

/-- A container of capacity 16 holding the int value 1234 (payload object
identity 5), as built by static_any<16> a(1234). -/
def a1234 : static_any := ⟨16, some ⟨5, intTy, 1234, false⟩, some ⟨intTy, 0⟩⟩

/-- A container of capacity 16 holding a plainTy value 42 (payload object
identity 5). -/
def aPlain : static_any := ⟨16, some ⟨5, plainTy, 42, false⟩, some ⟨plainTy, 0⟩⟩

/-- A container whose stored dispatcher was instantiated in another
binary (symbol 3 instead of localSymbol): the state produced by receiving
a static_any across a DLL boundary. -/
def aDll : static_any := ⟨16, some ⟨5, intTy, 7, false⟩, some ⟨intTy, 3⟩⟩

/-- A container of capacity 32 holding a plainTy value 7 (payload object
identity 9), used as a non-empty assignment destination. -/
def dPlain : static_any := ⟨32, some ⟨9, plainTy, 7, false⟩, some ⟨plainTy, 0⟩⟩

/-
Claim theorems.
-/

/-- C1.  The claim states that value assignment is failure-atomic for
every lvalue or rvalue argument whose chosen constructor throws.  The
code violates it for every lvalue argument: assign computes its
cannot_throw constant from is_nothrow_copy_constructible of the deduced
reference type _T = T&, which is vacuously true, so no snapshot is taken;
the old value is destroyed, the throwing copy propagates, and the
container is left empty.  Concretely: a static_any<16> holding int 1234
that is assigned a non-const lvalue of type unsafe_to_copy ends up empty
(function_ null, has<int>() false) instead of still holding 1234. -/
theorem assign_lvalue_throwing_copy_loses_value :
    (assign a1234 ValCat.lval utcTy 0 ⟨6, []⟩).thrown = true ∧
    (assign a1234 ValCat.lval utcTy 0 ⟨6, []⟩).self.empty = true ∧
    (assign a1234 ValCat.lval utcTy 0 ⟨6, []⟩).self.has ⟨intTy, false⟩ = false ∧
    ¬ (assign a1234 ValCat.lval utcTy 0 ⟨6, []⟩).self.empty = false := by
  decide

/-- C2 counterexample.  The claim states that a payload's destructor runs
exactly once over the container's lifetime on every path, including the
path where a failed assignment restores the snapshot.  On that very path
it runs twice: a container holding a plainTy payload (object 5) is
rvalue-assigned an unsafe_to_copy value; the snapshot is taken, the old
payload is destroyed (first destructor run), the move throws, the raw
bytes and dispatcher are restored, and destroying the container
afterwards runs the destructor of the restored object 5 again. -/
theorem snapshot_restore_double_destroy :
    dtorCount (destroy (assign aPlain ValCat.rval utcTy 0 ⟨6, []⟩).self
        (assign aPlain ValCat.rval utcTy 0 ⟨6, []⟩).ctx).2.events 5 = 2 ∧
    ¬ dtorCount (destroy (assign aPlain ValCat.rval utcTy 0 ⟨6, []⟩).self
        (assign aPlain ValCat.rval utcTy 0 ⟨6, []⟩).ctx).2.events 5 = 1 := by
  decide

/-- C3 counterexample.  The claim states that move-constructing or
move-assigning from a non-empty source consumes the source and leaves it
empty.  The code never clears the source's function_: after move-assigning
a capacity-16 container holding int 1234 into an empty capacity-32
container, the source still reports empty() == false and has<int>() ==
true (it holds a moved-from int). -/
theorem move_from_any_source_not_emptied :
    (assign_from_another (emptyAny 32) a1234 true ⟨6, []⟩).src.empty = false ∧
    (assign_from_another (emptyAny 32) a1234 true ⟨6, []⟩).src.has ⟨intTy, false⟩ = true ∧
    (ctor_from_rvalue_any 32 a1234 ⟨6, []⟩).src.empty = false ∧
    ¬ (assign_from_another (emptyAny 32) a1234 true ⟨6, []⟩).src.empty = true := by
  decide

/-- C4 counterexample.  The claim states that a non-rvalue source has its
payload copy-constructed.  The converting constructor from a non-const
lvalue static_any<_M> (any.hpp lines 100-104) forwards the source as an
rvalue, so the payload of a capacity-16 container holding int 1234 is
MOVE-constructed into the new capacity-32 container: the trace of the
construction is a single move-construction event and contains no
copy-construction event. -/
theorem ctor_from_lvalue_moves_payload :
    (ctor_from_lvalue_any 32 a1234 ⟨6, []⟩).ctx.events = [Event.moveCtor 6] ∧
    ((ctor_from_lvalue_any 32 a1234 ⟨6, []⟩).ctx.events.countP
      (fun e => match e with | Event.copyCtor _ => true | _ => false)) = 0 := by
  decide

/-- C7.  has<_T>() returns true iff the container is non-empty and the
stored dispatcher's type token equals the token of (the cv-stripped) _T:
false when empty, false for any other stored type, and — third and fourth
conjuncts — still true when the stored dispatcher is a distinct symbol of
another binary (s different from localSymbol), where the fast pointer
equality check fails and the type-identity token fallback decides. -/
theorem has_iff_stored_type_token_matches (a : static_any) (e : TypeExpr)
    (t : CppType) (cap s bid bv : Nat) (bm : Bool) (hs : ¬ s = localSymbol) :
    (a.has e = true ↔ ∃ d, a.fn = some d ∧ d.ty.tid = typeidOf e) ∧
    (a.fn = none → a.has e = false) ∧
    static_any.has ⟨cap, some ⟨bid, t, bv, bm⟩, some ⟨t, s⟩⟩ ⟨t, false⟩ = true ∧
    ((⟨t, s⟩ : Dispatcher) == get_function_for_type ⟨t, false⟩) = false := by
  refine ⟨?_, ?_, ?_, ?_⟩
  · cases hfn : a.fn with
    | none => simp [static_any.has, hfn]
    | some d =>
      by_cases hd : d = get_function_for_type e
      · subst hd
        simp [static_any.has, hfn, get_function_for_type, typeidOf]
      · have hbeq : (d == get_function_for_type e) = false := by
          simp [hd]
        simp [static_any.has, hfn, hbeq]
        exact comm
  · intro hfn; simp [static_any.has, hfn]
  · have hbeq : ((⟨t, s⟩ : Dispatcher) == get_function_for_type ⟨t, false⟩) = false := by
      simp [get_function_for_type]
      exact hs
    simp [static_any.has, hbeq, typeidOf]
  · simp [get_function_for_type]
    exact hs

/-- C8.  When has<_T>() is false (in particular when the container is
empty): the pointer-returning any_cast yields a null pointer (and, being
Option-valued, throws nothing), while the reference-returning any_cast
and get<_T>() fail with a bad_any_cast whose stored_type is the
container's actual type() — the typeid(void) sentinel when empty — and
whose target_type is the requested type token. -/
theorem any_cast_mismatch_behaviour (a : static_any) (e : TypeExpr)
    (h : a.has e = false) :
    any_cast_ptr a e = none ∧
    any_cast_ref a e = Except.error ⟨a.type, typeidOf e⟩ ∧
    a.get e = Except.error ⟨a.type, typeidOf e⟩ ∧
    (bad_any_cast.stored_type ⟨a.type, typeidOf e⟩ = a.type ∧
     bad_any_cast.target_type ⟨a.type, typeidOf e⟩ = typeidOf e) ∧
    (a.fn = none → a.type = voidTid) := by
  refine ⟨?_, ?_, ?_, ⟨rfl, rfl⟩, ?_⟩
  · simp [any_cast_ptr, h]
  · simp [any_cast_ref, h]
  · simp [static_any.get, any_cast_ref, h]
  · intro hfn; simp [static_any.type, hfn]

/-- C9.  Trivial container: storing a trivially-copyable value (its byte
image, of length sizeof <= capacity) and reading it back with the same
type returns the identical bytes; and copying one trivial container into
another of the same capacity copies the entire capacity-byte region, so
the destination buffer becomes byte-identical to the source buffer
regardless of the logical payload size. -/
theorem trivial_roundtrip_and_full_copy (a dst src : static_any_t)
    (bytes : List Nat) (k : Nat)
    (hk : bytes.length = k) (hcap : k ≤ a.buffT.length)
    (hlen : src.buffT.length = dst.buffT.length) :
    (a.copyVal bytes).getBytes k = bytes ∧
    (dst.copyFrom src).buffT = src.buffT := by
  constructor
  · subst hk
    simp [static_any_t.copyVal, static_any_t.getBytes, memcpyInto]
  · simp [static_any_t.copyFrom, memcpyInto, hlen]

/-- C10.  Type matching ignores top-level cv-qualifiers (and references,
collapsed in the model): the dispatcher returned by get_function_for_type
for const T is the dispatcher for plain T, has<const T>() computes the
same result as has<T>() on every container, and constructing a container
from a const T lvalue (value category clval, deduced _T = const T&) binds
the dispatcher for plain T without throwing when T's copy constructor
does not throw. -/
theorem cv_stripping_dispatcher_and_has (a : static_any) (t : CppType)
    (cap v n : Nat) (hct : t.copyThrows = false) :
    get_function_for_type ⟨t, true⟩ = get_function_for_type ⟨t, false⟩ ∧
    a.has ⟨t, true⟩ = a.has ⟨t, false⟩ ∧
    (copy_or_move cap ValCat.clval t v ⟨n, []⟩).self.fn =
      some (get_function_for_type ⟨t, false⟩) ∧
    (copy_or_move cap ValCat.clval t v ⟨n, []⟩).thrown = false := by
  refine ⟨rfl, rfl, ?_, ?_⟩ <;>
    simp [copy_or_move, movesValue, opCopy, hct, exprOfCat, get_function_for_type]

/-- C6.  Copy-assigning from another container of capacity M into one of
capacity N (M <= N being the compile-time admissibility condition carried
as a hypothesis): when the source holds a value of type t whose copy
constructor does not throw, the destination afterwards satisfies has<t>()
and get<t>() returns the source's stored value; and when the source is
empty, the destination ends up empty — both for assignment (even if the
destination previously held a value) and for construction. -/
theorem assign_from_another_copy_and_empty_source (capM capN oid ov s n pid pv : Nat)
    (t pt : CppType) (pm : Bool) (src dst : static_any)
    (hcap : capM ≤ capN)
    (hsrc : src = ⟨capM, some ⟨oid, t, ov, false⟩, some ⟨t, s⟩⟩)
    (hdst : dst = ⟨capN, some ⟨pid, pt, pv, pm⟩, some ⟨pt, 0⟩⟩)
    (hct : t.copyThrows = false) :
    (assign_from_another dst src false ⟨n, []⟩).thrown = false ∧
    (assign_from_another dst src false ⟨n, []⟩).self.has ⟨t, false⟩ = true ∧
    (assign_from_another dst src false ⟨n, []⟩).self.get ⟨t, false⟩ = Except.ok ov ∧
    (assign_from_another dst (emptyAny capM) false ⟨n, []⟩).self.empty = true ∧
    (copy_or_move_from_another capN (emptyAny capM) ⟨n, []⟩).self.empty = true := by
  subst hsrc hdst
  refine ⟨?_, ?_, ?_, ?_, ?_⟩ <;>
    simp [assign_from_another, copy_or_move_from_another, destroy, opCopy, hct,
          static_any.has, static_any.get, any_cast_ref, static_any.empty,
          get_function_for_type, typeidOf, emptyAny, static_any.type]

/-- C3 amended.  Copy-assigning from a non-empty source leaves the source
completely unchanged; move-assigning, and any-to-any construction (which
always moves), move-construct the destination payload from the source and
leave the source NON-empty: it keeps its dispatcher and type and its
payload object, now marked moved-from.  No operation empties the
source. -/
theorem copy_keeps_source_move_marks_moved_from (capM capN oid ov s n : Nat)
    (t : CppType) (src : static_any)
    (hcap : capM ≤ capN)
    (hsrc : src = ⟨capM, some ⟨oid, t, ov, false⟩, some ⟨t, s⟩⟩)
    (hmt : t.moveThrows = false) :
    (assign_from_another (emptyAny capN) src false ⟨n, []⟩).src = src ∧
    (assign_from_another (emptyAny capN) src true ⟨n, []⟩).src =
      ⟨capM, some ⟨oid, t, ov, true⟩, some ⟨t, s⟩⟩ ∧
    (assign_from_another (emptyAny capN) src true ⟨n, []⟩).src.empty = false ∧
    (assign_from_another (emptyAny capN) src true ⟨n, []⟩).self.get ⟨t, false⟩ =
      Except.ok ov ∧
    (copy_or_move_from_another capN src ⟨n, []⟩).src =
      ⟨capM, some ⟨oid, t, ov, true⟩, some ⟨t, s⟩⟩ ∧
    (copy_or_move_from_another capN src ⟨n, []⟩).src.empty = false := by
  subst hsrc
  refine ⟨?_, ?_, ?_, ?_, ?_, ?_⟩
  · cases hc : t.copyThrows <;> cases hq : queryNoexcept t <;>
      simp [assign_from_another, destroy, opCopy, emptyAny, hc, hq]
  all_goals
    simp [assign_from_another, copy_or_move_from_another, destroy, opMove,
          emptyAny, hmt, static_any.empty, static_any.get, any_cast_ref,
          static_any.has, get_function_for_type, typeidOf]

/-- C4 amended.  Construction of a container of capacity N from a
non-empty source of capacity M <= N move-constructs the payload via the
source's dispatcher for BOTH a non-const lvalue source and an rvalue
source (the lvalue converting constructor forwards its argument as an
rvalue), and in both cases the destination adopts the source's dispatcher
(the very function-pointer value, symbol included). -/
theorem ctor_from_any_moves_and_adopts_dispatcher (capM capN oid ov s n : Nat)
    (t : CppType) (src : static_any)
    (hcap : capM ≤ capN)
    (hsrc : src = ⟨capM, some ⟨oid, t, ov, false⟩, some ⟨t, s⟩⟩)
    (hmt : t.moveThrows = false) :
    ctor_from_lvalue_any capN src ⟨n, []⟩ = ctor_from_rvalue_any capN src ⟨n, []⟩ ∧
    (ctor_from_lvalue_any capN src ⟨n, []⟩).self.fn = some ⟨t, s⟩ ∧
    (ctor_from_lvalue_any capN src ⟨n, []⟩).self.buff = some ⟨n, t, ov, false⟩ ∧
    (ctor_from_lvalue_any capN src ⟨n, []⟩).ctx.events = [Event.moveCtor n] := by
  subst hsrc
  refine ⟨rfl, ?_, ?_, ?_⟩ <;>
    simp [ctor_from_lvalue_any, copy_or_move_from_another, opMove, hmt]

/-- C2 amended.  The destructor of a held payload runs exactly once on
the paths that do not restore a snapshot — reset followed by container
destruction, and a successful (rvalue) reassignment followed by container
destruction — but on the path where a replacement constructor throws and
the old value is restored from the raw-byte snapshot, the old payload's
destructor runs once inside the failed assignment and once more when the
restored object is destroyed with the container: twice in total.  (oid is
the held payload's object identity; n, the next fresh identity, is larger
than every identity already in use.) -/
theorem dtor_once_unless_snapshot_restored (cap oid ov v n s : Nat)
    (oty t1 t2 : CppType) (a : static_any)
    (ha : a = ⟨cap, some ⟨oid, oty, ov, false⟩, some ⟨oty, s⟩⟩)
    (hfresh : oid < n)
    (h1 : t1.moveThrows = false)
    (h2 : t2.nothrowCopy = false) (h3 : t2.moveThrows = true) :
    dtorCount (destroy (reset a ⟨n, []⟩).1 (reset a ⟨n, []⟩).2).2.events oid = 1 ∧
    ((assign a ValCat.rval t1 v ⟨n, []⟩).thrown = false ∧
     dtorCount (destroy (assign a ValCat.rval t1 v ⟨n, []⟩).self
        (assign a ValCat.rval t1 v ⟨n, []⟩).ctx).2.events oid = 1) ∧
    ((assign a ValCat.rval t2 v ⟨n, []⟩).thrown = true ∧
     dtorCount (destroy (assign a ValCat.rval t2 v ⟨n, []⟩).self
        (assign a ValCat.rval t2 v ⟨n, []⟩).ctx).2.events oid = 2) := by
  subst ha
  have hne : ¬ n = oid := by omega
  refine ⟨?_, ⟨?_, ?_⟩, ⟨?_, ?_⟩⟩
  · simp [reset, destroy, dtorCount]
  · cases hc : t1.nothrowCopy <;>
      simp [assign, cannot_throw, movesValue, destroy, opMove, h1, hc]
  · cases hc : t1.nothrowCopy <;>
      simp [assign, cannot_throw, movesValue, destroy, opMove, h1, hc,
            dtorCount, hne]
  · simp [assign, cannot_throw, movesValue, destroy, opMove, h2, h3]
  · simp [assign, cannot_throw, movesValue, destroy, opMove, h2, h3, dtorCount]

/-- C5.  emplace<_T> whose _T-constructor throws: the exception
propagates, an initially empty container stays empty, a container holding
a value whose dispatcher reports the noexcept guarantee afterwards still
reports that value (same dispatcher, same type, same payload value,
whether the preservation move itself threw before _T was attempted or the
old value was moved out and restored), and a container holding a value
without the guarantee ends up empty. -/
theorem emplace_throwing_ctor_outcomes (cap v n oid ov s : Nat)
    (t oty1 oty2 : CppType) (a1 a2 : static_any)
    (ha1 : a1 = ⟨cap, some ⟨oid, oty1, ov, false⟩, some ⟨oty1, s⟩⟩)
    (ha2 : a2 = ⟨cap, some ⟨oid, oty2, ov, false⟩, some ⟨oty2, s⟩⟩)
    (hg : queryNoexcept oty1 = true) (hng : queryNoexcept oty2 = false) :
    ((emplace (emptyAny cap) t true v ⟨n, []⟩).thrown = true ∧
     (emplace (emptyAny cap) t true v ⟨n, []⟩).self.empty = true) ∧
    ((emplace a1 t true v ⟨n, []⟩).thrown = true ∧
     (emplace a1 t true v ⟨n, []⟩).self.fn = some ⟨oty1, s⟩ ∧
     ∃ q, (emplace a1 t true v ⟨n, []⟩).self.buff = some q ∧
       q.ty = oty1 ∧ q.val = ov ∧ q.movedFrom = false) ∧
    ((emplace a2 t true v ⟨n, []⟩).thrown = true ∧
     (emplace a2 t true v ⟨n, []⟩).self.empty = true) := by
  subst ha1 ha2
  refine ⟨?_, ?_, ?_⟩
  · simp [emplace, emptyAny, destroy, static_any.empty]
  · cases hmt : oty1.moveThrows <;>
      simp [emplace, assign_from_another, destroy, opMove, emptyAny,
            hg, hmt, static_any.empty]
  · simp [emplace, assign_from_another, destroy, opMove, emptyAny,
          hng, static_any.empty]

/-
Witnesses: each theorem with hypotheses, applied at a concrete input with
the hypotheses discharged there.
-/

/-- Witness for C7 at the cross-binary container aDll (stored dispatcher
symbol 3). -/
theorem has_iff_stored_type_token_matches_witness :
    (¬ (3 : Nat) = localSymbol) ∧
    ((aDll.has ⟨intTy, false⟩ = true ↔
      ∃ d, aDll.fn = some d ∧ d.ty.tid = typeidOf ⟨intTy, false⟩) ∧
     (aDll.fn = none → aDll.has ⟨intTy, false⟩ = false) ∧
     static_any.has ⟨16, some ⟨5, intTy, 7, false⟩, some ⟨intTy, 3⟩⟩ ⟨intTy, false⟩ = true ∧
     ((⟨intTy, 3⟩ : Dispatcher) == get_function_for_type ⟨intTy, false⟩) = false) :=
  ⟨by decide,
   has_iff_stored_type_token_matches aDll ⟨intTy, false⟩ intTy 16 3 5 7 false (by decide)⟩

/-- Witness for C8: requesting plainTy from a container holding int. -/
theorem any_cast_mismatch_behaviour_witness :
    a1234.has ⟨plainTy, false⟩ = false ∧
    (any_cast_ptr a1234 ⟨plainTy, false⟩ = none ∧
     any_cast_ref a1234 ⟨plainTy, false⟩ =
       Except.error ⟨a1234.type, typeidOf ⟨plainTy, false⟩⟩ ∧
     a1234.get ⟨plainTy, false⟩ =
       Except.error ⟨a1234.type, typeidOf ⟨plainTy, false⟩⟩ ∧
     (bad_any_cast.stored_type ⟨a1234.type, typeidOf ⟨plainTy, false⟩⟩ = a1234.type ∧
      bad_any_cast.target_type ⟨a1234.type, typeidOf ⟨plainTy, false⟩⟩ =
        typeidOf ⟨plainTy, false⟩) ∧
     (a1234.fn = none → a1234.type = voidTid)) :=
  ⟨by decide, any_cast_mismatch_behaviour a1234 ⟨plainTy, false⟩ (by decide)⟩

/-- Witness for C9: a 4-byte trivial container, a 2-byte value. -/
theorem trivial_roundtrip_and_full_copy_witness :
    ([1, 2] : List Nat).length = 2 ∧ 2 ≤ ([9, 9, 9, 9] : List Nat).length ∧
    ([1, 2, 3, 4] : List Nat).length = ([0, 0, 0, 0] : List Nat).length ∧
    ((static_any_t.mk 4 [9, 9, 9, 9]).copyVal [1, 2]).getBytes 2 = [1, 2] ∧
    ((static_any_t.mk 4 [0, 0, 0, 0]).copyFrom ⟨4, [1, 2, 3, 4]⟩).buffT = [1, 2, 3, 4] :=
  ⟨by decide, by decide, by decide,
   trivial_roundtrip_and_full_copy ⟨4, [9, 9, 9, 9]⟩ ⟨4, [0, 0, 0, 0]⟩ ⟨4, [1, 2, 3, 4]⟩
     [1, 2] 2 (by decide) (by decide) (by decide)⟩

/-- Witness for C10 at int. -/
theorem cv_stripping_dispatcher_and_has_witness :
    intTy.copyThrows = false ∧
    (get_function_for_type ⟨intTy, true⟩ = get_function_for_type ⟨intTy, false⟩ ∧
     a1234.has ⟨intTy, true⟩ = a1234.has ⟨intTy, false⟩ ∧
     (copy_or_move 16 ValCat.clval intTy 9 ⟨6, []⟩).self.fn =
       some (get_function_for_type ⟨intTy, false⟩) ∧
     (copy_or_move 16 ValCat.clval intTy 9 ⟨6, []⟩).thrown = false) :=
  ⟨by decide, cv_stripping_dispatcher_and_has a1234 intTy 16 9 6 (by decide)⟩

/-- Witness for C6: copy-assigning a capacity-16 container holding int
1234 into a capacity-32 container holding a plainTy value. -/
theorem assign_from_another_copy_and_empty_source_witness :
    (16 : Nat) ≤ 32 ∧
    ((assign_from_another dPlain a1234 false ⟨6, []⟩).thrown = false ∧
     (assign_from_another dPlain a1234 false ⟨6, []⟩).self.has ⟨intTy, false⟩ = true ∧
     (assign_from_another dPlain a1234 false ⟨6, []⟩).self.get ⟨intTy, false⟩ =
       Except.ok 1234 ∧
     (assign_from_another dPlain (emptyAny 16) false ⟨6, []⟩).self.empty = true ∧
     (copy_or_move_from_another 32 (emptyAny 16) ⟨6, []⟩).self.empty = true) :=
  ⟨by decide,
   assign_from_another_copy_and_empty_source 16 32 5 1234 0 6 9 7 intTy plainTy false
     a1234 dPlain (by decide) (by decide) (by decide) (by decide)⟩

/-- Witness for C3 amended at the int container a1234. -/
theorem copy_keeps_source_move_marks_moved_from_witness :
    (16 : Nat) ≤ 32 ∧
    ((assign_from_another (emptyAny 32) a1234 false ⟨6, []⟩).src = a1234 ∧
     (assign_from_another (emptyAny 32) a1234 true ⟨6, []⟩).src =
       ⟨16, some ⟨5, intTy, 1234, true⟩, some ⟨intTy, 0⟩⟩ ∧
     (assign_from_another (emptyAny 32) a1234 true ⟨6, []⟩).src.empty = false ∧
     (assign_from_another (emptyAny 32) a1234 true ⟨6, []⟩).self.get ⟨intTy, false⟩ =
       Except.ok 1234 ∧
     (copy_or_move_from_another 32 a1234 ⟨6, []⟩).src =
       ⟨16, some ⟨5, intTy, 1234, true⟩, some ⟨intTy, 0⟩⟩ ∧
     (copy_or_move_from_another 32 a1234 ⟨6, []⟩).src.empty = false) :=
  ⟨by decide,
   copy_keeps_source_move_marks_moved_from 16 32 5 1234 0 6 intTy a1234
     (by decide) (by decide) (by decide)⟩

/-- Witness for C4 amended at the int container a1234. -/
theorem ctor_from_any_moves_and_adopts_dispatcher_witness :
    (16 : Nat) ≤ 32 ∧
    (ctor_from_lvalue_any 32 a1234 ⟨6, []⟩ = ctor_from_rvalue_any 32 a1234 ⟨6, []⟩ ∧
     (ctor_from_lvalue_any 32 a1234 ⟨6, []⟩).self.fn = some ⟨intTy, 0⟩ ∧
     (ctor_from_lvalue_any 32 a1234 ⟨6, []⟩).self.buff = some ⟨6, intTy, 1234, false⟩ ∧
     (ctor_from_lvalue_any 32 a1234 ⟨6, []⟩).ctx.events = [Event.moveCtor 6]) :=
  ⟨by decide,
   ctor_from_any_moves_and_adopts_dispatcher 16 32 5 1234 0 6 intTy a1234
     (by decide) (by decide) (by decide)⟩

/-- Witness for C2 amended: the plainTy container aPlain, with int as the
non-throwing replacement and unsafe_to_copy as the throwing one. -/
theorem dtor_once_unless_snapshot_restored_witness :
    (5 : Nat) < 6 ∧ intTy.moveThrows = false ∧
    utcTy.nothrowCopy = false ∧ utcTy.moveThrows = true ∧
    (dtorCount (destroy (reset aPlain ⟨6, []⟩).1 (reset aPlain ⟨6, []⟩).2).2.events 5 = 1 ∧
     ((assign aPlain ValCat.rval intTy 0 ⟨6, []⟩).thrown = false ∧
      dtorCount (destroy (assign aPlain ValCat.rval intTy 0 ⟨6, []⟩).self
        (assign aPlain ValCat.rval intTy 0 ⟨6, []⟩).ctx).2.events 5 = 1) ∧
     ((assign aPlain ValCat.rval utcTy 0 ⟨6, []⟩).thrown = true ∧
      dtorCount (destroy (assign aPlain ValCat.rval utcTy 0 ⟨6, []⟩).self
        (assign aPlain ValCat.rval utcTy 0 ⟨6, []⟩).ctx).2.events 5 = 2)) :=
  ⟨by decide, by decide, by decide, by decide,
   dtor_once_unless_snapshot_restored 16 5 42 0 6 0 plainTy intTy utcTy aPlain
     (by decide) (by decide) (by decide) (by decide) (by decide)⟩

/-- Witness for C5: emplacing a throwing unsafe_to_construct-like type
into an empty container, into a container holding int 1234 (guarantee
held, value preserved), and into a container holding a plainTy value
(no guarantee, container emptied). -/
theorem emplace_throwing_ctor_outcomes_witness :
    queryNoexcept intTy = true ∧ queryNoexcept plainTy = false ∧
    (((emplace (emptyAny 16) utcTy true 0 ⟨6, []⟩).thrown = true ∧
      (emplace (emptyAny 16) utcTy true 0 ⟨6, []⟩).self.empty = true) ∧
     ((emplace a1234 utcTy true 0 ⟨6, []⟩).thrown = true ∧
      (emplace a1234 utcTy true 0 ⟨6, []⟩).self.fn = some ⟨intTy, 0⟩ ∧
      ∃ q, (emplace a1234 utcTy true 0 ⟨6, []⟩).self.buff = some q ∧
        q.ty = intTy ∧ q.val = 1234 ∧ q.movedFrom = false) ∧
     ((emplace ⟨16, some ⟨5, plainTy, 1234, false⟩, some ⟨plainTy, 0⟩⟩
         utcTy true 0 ⟨6, []⟩).thrown = true ∧
      (emplace ⟨16, some ⟨5, plainTy, 1234, false⟩, some ⟨plainTy, 0⟩⟩
         utcTy true 0 ⟨6, []⟩).self.empty = true)) :=
  ⟨by decide, by decide,
   emplace_throwing_ctor_outcomes 16 0 6 5 1234 0 utcTy intTy plainTy
     a1234 ⟨16, some ⟨5, plainTy, 1234, false⟩, some ⟨plainTy, 0⟩⟩
     (by decide) (by decide) (by decide) (by decide)⟩
